import Mathlib

/-!
A verification development for the aureon procurement scoring backend.

Each service function the claims mention is shallowly embedded as an
executable Lean definition over `String`, `List`, `Option` and `ℚ`
(Python `Decimal`/score arithmetic is exact decimal arithmetic, modelled
by `ℚ`).  Optional fields are `Option` values, and Python truthiness of
strings, lists and decimals is modelled explicitly.

Rational arithmetic is carried out with kernel-computable wrappers
(`qadd`, `qsub`, `qmul`, `qdiv`, `qmax`, `qmin`, built on `mkRat`), with
bridge lemmas identifying them with the field operations of `ℚ`, so that
theorems about concrete inputs can be settled by `decide` and algebraic
reasoning can use Mathlib's lemmas.
-/

/-! ## Kernel-computable rational arithmetic -/

/-- Addition on `ℚ`, kernel-computable. -/
def qadd (a b : ℚ) : ℚ := mkRat (a.num * b.den + b.num * a.den) (a.den * b.den)

/-- Subtraction on `ℚ`, kernel-computable. -/
def qsub (a b : ℚ) : ℚ := mkRat (a.num * b.den - b.num * a.den) (a.den * b.den)

/-- Multiplication on `ℚ`, kernel-computable. -/
def qmul (a b : ℚ) : ℚ := mkRat (a.num * b.num) (a.den * b.den)

/-- Division on `ℚ` (zero when the divisor is zero), kernel-computable. -/
def qdiv (a b : ℚ) : ℚ :=
  if 0 ≤ b.num then mkRat (a.num * b.den) (a.den * b.num.natAbs)
  else mkRat (-(a.num * b.den)) (a.den * b.num.natAbs)

/-- Binary maximum on `ℚ`, kernel-computable. -/
def qmax (a b : ℚ) : ℚ := if a ≤ b then b else a

/-- Binary minimum on `ℚ`, kernel-computable. -/
def qmin (a b : ℚ) : ℚ := if a ≤ b then a else b

/-! ## Basic string and truthiness utilities -/

/-- Python `str.upper()` on the ASCII range. -/
def upperStr (s : String) : String := (s.toList.map Char.toUpper).asString

/-- Python `str.lower()` on the ASCII range. -/
def lowerStr (s : String) : String := (s.toList.map Char.toLower).asString

/-- Whitespace characters removed by Python `str.strip()`. -/
def isPySpace (c : Char) : Bool :=
  c == ' ' || c == '\t' || c == '\n' || c == '\r' || c == '\x0b' || c == '\x0c'

/-- Python `str.strip()`: removes leading and trailing whitespace. -/
def pyStrip (s : String) : String :=
  (((s.toList.dropWhile isPySpace).reverse.dropWhile isPySpace).reverse).asString

/-- Python truthiness of an optional string: `None` and `""` are falsy. -/
def strTruthy : Option String → Bool
  | none => false
  | some s => !(s == "")

/-- Python truthiness of an optional decimal: `None` and `0` are falsy. -/
def decTruthy : Option ℚ → Bool
  | none => false
  | some v => !(v == 0)

/-- Python `sub in hay` substring containment, over character lists. -/
def containsSub (hay sub : String) : Bool :=
  (List.range (hay.toList.length + 1)).any
    (fun i => sub.toList.isPrefixOf (hay.toList.drop i))

/-- Length of the longest common prefix of two character lists; this is the
`match_length` computed by the `for ... zip ... break` loops in the source. -/
def commonPrefixLen : List Char → List Char → Nat
  | a :: as, b :: bs => if a = b then commonPrefixLen as bs + 1 else 0
  | _, _ => 0

/-! ## NAICS matcher (relevance_scorer._calculate_naics_score) -/

/-- The discrete score band applied to a matching-prefix length in
`_calculate_naics_score`: 1 / 0.9 / 0.75 / 0.5 / 0.25 / 0. -/
def naicsBand (l : Nat) : ℚ :=
  if l ≥ 6 then 1
  else if l ≥ 5 then mkRat 9 10
  else if l ≥ 4 then mkRat 3 4
  else if l ≥ 3 then mkRat 1 2
  else if l ≥ 2 then mkRat 1 4
  else 0

/-- The `for org_naics in organization.naics_codes` loop of
`_calculate_naics_score`: keeps the best band seen, early-exiting at 1.0. -/
def naicsLoop (opp : String) : List String → ℚ → ℚ
  | [], best => best
  | c :: rest, best =>
      let score := naicsBand (commonPrefixLen opp.toList (pyStrip c).toList)
      let best1 := qmax best score
      if best1 = 1 then best1 else naicsLoop opp rest best1

/-- `RelevanceScorer._calculate_naics_score`: neutral 0.5 when the
opportunity code is falsy or the organization has no codes, otherwise the
best prefix band over all organization codes. -/
def calculate_naics_score (oppCode : Option String) (orgCodes : List String) : ℚ :=
  if strTruthy oppCode = false ∨ orgCodes = [] then mkRat 1 2
  else naicsLoop (pyStrip (oppCode.getD "")) orgCodes 0

/-- The specification's description of the NAICS matcher: the band of the
longest common prefix length over all candidate codes, neutral 0.5 on
missing data.  (Spec-side definition, for the refinement claim C2.) -/
def naicsScoreSpec (oppCode : Option String) (orgCodes : List String) : ℚ :=
  if strTruthy oppCode = false ∨ orgCodes = [] then mkRat 1 2
  else
    naicsBand ((orgCodes.map
      (fun c => commonPrefixLen (pyStrip (oppCode.getD "")).toList (pyStrip c).toList)).foldr max 0)


-- (further definitions are added below; all theorems follow the definitions)

/-! ## Set-aside eligibility tables -/

/-- `RelevanceScorer.SET_ASIDE_ELIGIBLE` (note the mixed-case `HUBZone`
entries, exactly as in the source). -/
def relevance_SET_ASIDE_ELIGIBLE : List (String × List String) :=
  [("SB", ["SB", "SDB", "8A", "WOSB", "EDWOSB", "HUBZone", "VOSB", "SDVOSB"]),
   ("8A", ["8A"]),
   ("WOSB", ["WOSB", "EDWOSB"]),
   ("EDWOSB", ["EDWOSB"]),
   ("SDVOSB", ["SDVOSB", "VOSB"]),
   ("VOSB", ["VOSB", "SDVOSB"]),
   ("HUBZone", ["HUBZone"])]

/-- `WinProbabilityModel.SET_ASIDE_ELIGIBLE`, exactly as in the source. -/
def winprob_SET_ASIDE_ELIGIBLE : List (String × List String) :=
  [("SB", ["SB", "SDB", "8A", "WOSB", "EDWOSB", "HUBZone", "VOSB", "SDVOSB"]),
   ("8A", ["8A", "8(A)"]),
   ("8(A)", ["8A", "8(A)"]),
   ("WOSB", ["WOSB", "EDWOSB"]),
   ("EDWOSB", ["EDWOSB"]),
   ("SDVOSB", ["SDVOSB", "VOSB"]),
   ("VOSB", ["VOSB", "SDVOSB"]),
   ("HUBZone", ["HUBZone"]),
   ("HUBZONE", ["HUBZone", "HUBZONE"])]

/-- The `setaside_map` local to `RiskAssessor._assess_eligibility_risk`
(its `SB` row omits `EDWOSB` and `VOSB`, and spells `HUBZONE` upper-case,
exactly as in the source). -/
def risk_setaside_map : List (String × List String) :=
  [("SDVOSB", ["SDVOSB"]),
   ("VOSB", ["VOSB", "SDVOSB"]),
   ("8(A)", ["8A", "8(A)"]),
   ("8A", ["8A", "8(A)"]),
   ("WOSB", ["WOSB", "EDWOSB"]),
   ("EDWOSB", ["EDWOSB"]),
   ("HUBZONE", ["HUBZONE"]),
   ("SDB", ["SDB", "8A", "8(A)"]),
   ("SB", ["SB", "SDB", "8A", "WOSB", "SDVOSB", "HUBZONE"])]

/-! ## Relevance size sub-score (relevance_scorer._calculate_size_score) -/

/-- The capacity band of `_calculate_size_score` applied to the ratio
`estimated_value_max / annual_revenue`. -/
def capacityBand (ratio : ℚ) : ℚ :=
  if ratio < mkRat 1 10 then mkRat 19 20
  else if ratio < mkRat 1 2 then 1
  else if ratio < 1 then mkRat 4 5
  else if ratio < 2 then mkRat 1 2
  else mkRat 1 5

/-- `RelevanceScorer._calculate_size_score`.  The set-aside clamp runs only
when `opportunity.set_aside_type` and `organization.set_aside_types` are
both truthy and the required type has a non-empty entry in the table; the
capacity `min` runs only when both decimals are truthy.  (The source
computes the ratio in binary floating point via `float(...)`; it is
modelled as exact division.) -/
def calculate_size_score (orgSetAsides : List String) (annualRevenue : Option ℚ)
    (oppSetAside : Option String) (estValueMax : Option ℚ) : ℚ :=
  let score : ℚ := 1
  let score :=
    if strTruthy oppSetAside = true ∧ orgSetAsides ≠ [] then
      let opp := upperStr (oppSetAside.getD "")
      let orgs := orgSetAsides.map upperStr
      let eligible := (relevance_SET_ASIDE_ELIGIBLE.lookup opp).getD []
      if eligible ≠ [] then
        if eligible.any (fun t => orgs.contains t) then (1 : ℚ) else mkRat 1 5
      else score
    else score
  if decTruthy estValueMax = true ∧ decTruthy annualRevenue = true then
    let ratio := qdiv (estValueMax.getD 0) (annualRevenue.getD 0)
    qmin score (capacityBand ratio)
  else score

/-! ## Geographic scoring (both engines) -/

/-- `RelevanceScorer.STATE_ADJACENCY`, exactly as in the source. -/
def relevance_STATE_ADJACENCY : List (String × List String) :=
  [("VA", ["DC", "MD", "WV", "NC", "TN", "KY"]),
   ("MD", ["DC", "VA", "WV", "PA", "DE"]),
   ("DC", ["VA", "MD"]),
   ("CA", ["OR", "NV", "AZ"]),
   ("TX", ["NM", "OK", "AR", "LA"]),
   ("FL", ["GA", "AL"])]

/-- The body of `RelevanceScorer._calculate_geographic_score` after both
states have been uppercased: same state, adjacency in either direction,
DC-area membership, then the default. -/
def relevanceGeoCore (orgState oppState : String) : ℚ :=
  if orgState = oppState then 1
  else if ((relevance_STATE_ADJACENCY.lookup orgState).getD []).contains oppState then mkRat 4 5
  else if ((relevance_STATE_ADJACENCY.lookup oppState).getD []).contains orgState then mkRat 4 5
  else if ["DC", "VA", "MD"].contains orgState ∨ ["DC", "VA", "MD"].contains oppState then
    mkRat 7 10
  else mkRat 2 5

/-- `RelevanceScorer._calculate_geographic_score`: 0.6 when either state is
falsy, else the uppercased-state chain. -/
def calculate_geographic_score (orgState oppState : Option String) : ℚ :=
  if strTruthy orgState = false ∨ strTruthy oppState = false then mkRat 3 5
  else relevanceGeoCore (upperStr (orgState.getD "")) (upperStr (oppState.getD ""))

/-- The `adjacent_states` dict local to
`WinProbabilityModel._score_geographic_fit`, exactly as in the source. -/
def winprob_adjacent_states : List (String × List String) :=
  [("VA", ["DC", "MD", "WV", "NC", "TN", "KY"]),
   ("MD", ["DC", "VA", "WV", "PA", "DE"]),
   ("DC", ["VA", "MD"]),
   ("CA", ["OR", "NV", "AZ"]),
   ("TX", ["NM", "OK", "AR", "LA"]),
   ("FL", ["GA", "AL"]),
   ("NY", ["NJ", "CT", "PA", "VT", "MA"]),
   ("IL", ["WI", "IN", "MO", "IA", "KY"])]

/-- The remote/telework keyword check at the end of `_score_geographic_fit`:
runs only when the description is truthy. -/
def remoteEligible (oppDesc : Option String) : Bool :=
  strTruthy oppDesc &&
    (containsSub (lowerStr (oppDesc.getD "")) "remote" ||
     containsSub (lowerStr (oppDesc.getD "")) "telework")

/-- The body of `WinProbabilityModel._score_geographic_fit` after both
states have been uppercased: same state, DC-metro pair, one-directional
adjacency (`org_state in adjacent_states and opp_state in
adjacent_states.get(org_state, [])`), remote keyword, then the default. -/
def winprobGeoCore (orgState oppState : String) (oppDesc : Option String) : ℚ :=
  if orgState = oppState then 1
  else if ["DC", "VA", "MD"].contains orgState ∧ ["DC", "VA", "MD"].contains oppState then
    mkRat 9 10
  else if (winprob_adjacent_states.lookup orgState).isSome ∧
      ((winprob_adjacent_states.lookup orgState).getD []).contains oppState then mkRat 3 4
  else if remoteEligible oppDesc then mkRat 4 5
  else mkRat 2 5

/-- `WinProbabilityModel._score_geographic_fit` (score component; the
analysis string is not modelled): 0.6 when either uppercased state is
empty, else the core chain. -/
def score_geographic_fit (orgState oppState : Option String) (oppDesc : Option String) : ℚ :=
  let o := upperStr (orgState.getD "")
  let p := upperStr (oppState.getD "")
  if o = "" ∨ p = "" then mkRat 3 5
  else winprobGeoCore o p oppDesc

/-! ## Win-probability set-aside factor
(win_probability._score_setaside_eligibility) -/

/-- `WinProbabilityModel._score_setaside_eligibility` (score component; the
analysis string is not modelled). -/
def score_setaside_eligibility (orgSetAsides : List String) (oppSetAside : Option String) : ℚ :=
  if strTruthy oppSetAside = false then mkRat 3 5
  else
    let opp := pyStrip (upperStr (oppSetAside.getD ""))
    let orgs := orgSetAsides.map (fun s => pyStrip (upperStr s))
    if orgs = [] then
      if containsSub opp "SB" ∨ containsSub opp "SMALL" then mkRat 3 10
      else mkRat 1 2
    else
      let eligible := (winprob_SET_ASIDE_ELIGIBLE.lookup opp).getD [opp]
      if eligible.any (fun t => orgs.contains t) then 1 else mkRat 1 10

/-! ## Risk assessor: levels, eligibility and timeline categories -/

/-- One risk category result, as in the `RiskCategory` dataclass. -/
structure RiskCategory where
  level : String
  score : ℚ
  factors : List String
deriving DecidableEq, Repr

/-- `RiskAssessor._score_to_level` with the `RISK_THRESHOLDS` table. -/
def score_to_level (s : ℚ) : String :=
  if s ≤ mkRat 1 4 then "low"
  else if s ≤ mkRat 1 2 then "medium"
  else if s ≤ mkRat 3 4 then "high"
  else "critical"

/-- `RiskAssessor._assess_eligibility_risk`: set-aside eligibility (+0.8),
clearance keywords (+0.4), missing UEI (+0.3), clamped to [0,1]. -/
def assess_eligibility_risk (orgSetAsides : List String) (orgUei : Option String)
    (oppSetAside clearanceRequired : Option String) : RiskCategory :=
  let factors : List String := []
  let risk : ℚ := 0
  let (factors, risk) :=
    if strTruthy oppSetAside then
      let opp := upperStr (oppSetAside.getD "")
      let orgs := orgSetAsides.map upperStr
      let eligible := (risk_setaside_map.lookup opp).getD [opp]
      if eligible.any (fun t => orgs.contains t) then (factors, risk)
      else (factors ++ ["Not eligible for " ++ opp ++ " set-aside"], qadd risk (mkRat 4 5))
    else (factors, risk)
  let (factors, risk) :=
    if strTruthy clearanceRequired then
      let cl := lowerStr (clearanceRequired.getD "")
      if containsSub cl "secret" ∨ containsSub cl "top secret" ∨ containsSub cl "ts/sci" then
        (factors ++ ["Requires " ++ clearanceRequired.getD "" ++ " clearance"],
         qadd risk (mkRat 2 5))
      else (factors, risk)
    else (factors, risk)
  let (factors, risk) :=
    if strTruthy orgUei = false then
      (factors ++ ["No UEI on file - SAM.gov registration may be needed"], qadd risk (mkRat 3 10))
    else (factors, risk)
  let risk := qmin 1 risk
  { level := score_to_level risk, score := risk, factors := factors }

/-- `RiskAssessor._assess_timeline_risk`.  Instants are seconds since the
epoch (UTC); Python's `timedelta.days` is floor division by 86400. -/
def assess_timeline_risk (responseDeadline : Option ℤ) (now : ℤ) : RiskCategory :=
  let (factors, risk) :=
    match responseDeadline with
    | some d =>
        let days : ℤ := Int.fdiv (d - now) 86400
        if days < 0 then (["Response deadline has passed"], (1 : ℚ))
        else if days < 7 then
          (["Only " ++ toString days ++ " days until deadline - urgent"], mkRat 7 10)
        else if days < 14 then
          ([toString days ++ " days until deadline - tight timeline"], mkRat 2 5)
        else if days < 30 then
          ([toString days ++ " days until deadline - manageable"], mkRat 1 5)
        else ([], 0)
    | none => (["No response deadline specified"], mkRat 1 10)
  let risk := qmin 1 risk
  { level := score_to_level risk, score := risk, factors := factors }


/-! ## Python banker's rounding (round(x, 4)) -/

/-- Floor of a rational, computed from its numerator and denominator. -/
def ratFloor (y : ℚ) : ℤ := Int.fdiv y.num (y.den : ℤ)

/-- Python `round()` on a value scaled to an integer position: round half to
even. -/
def pyRoundHalfEven (y : ℚ) : ℤ :=
  let f : ℤ := ratFloor y
  let frac := qsub y (mkRat f 1)
  if frac < mkRat 1 2 then f
  else if mkRat 1 2 < frac then f + 1
  else if f % 2 = 0 then f else f + 1

/-- Python `round(x, 4)`. -/
def pyRound4 (x : ℚ) : ℚ := mkRat (pyRoundHalfEven (qmul x (mkRat 10000 1))) 10000

/-! ## Capability keywords (win_probability._extract_capability_keywords) -/

/-- Characters the regex `\b` boundary treats as word characters, on
lowercased ASCII text. -/
def isWordChar (c : Char) : Bool :=
  (decide ('a' ≤ c) && decide (c ≤ 'z')) || (decide ('0' ≤ c) && decide (c ≤ '9')) || c == '_'

/-- Maximal runs of word characters in a character list. -/
def wordRunsAux : List Char → List Char → List (List Char)
  | [], acc => if acc = [] then [] else [acc.reverse]
  | c :: rest, acc =>
      if isWordChar c then wordRunsAux rest (c :: acc)
      else if acc = [] then wordRunsAux rest []
      else acc.reverse :: wordRunsAux rest []

/-- The matches of `\b[a-z]{4,}\b` on a lowercased text: maximal word-character
runs that consist solely of letters and have length at least 4. -/
def alphaWords (text : String) : List String :=
  ((wordRunsAux (lowerStr text).toList []).filter
    (fun r => r.length ≥ 4 && r.all (fun c => decide ('a' ≤ c) && decide (c ≤ 'z')))).map
    List.asString

/-- The stop-word set of `_extract_capability_keywords`, exactly as in the
source. -/
def winprob_stop_words : List String :=
  ["the", "and", "for", "are", "but", "not", "you", "all", "can",
   "had", "her", "was", "one", "our", "out", "has", "have", "been",
   "will", "with", "this", "that", "from", "they", "which", "their",
   "would", "there", "could", "other", "into", "more", "some", "such",
   "than", "them", "then", "these", "only", "over", "also", "after",
   "services", "service", "shall", "must", "provide", "including",
   "company", "organization", "team", "experience", "years"]

/-- First-occurrence deduplication. -/
def dedupFirstAux : List String → List String → List String
  | [], _ => []
  | x :: rest, seen =>
      if seen.contains x then dedupFirstAux rest seen
      else x :: dedupFirstAux rest (x :: seen)

/-- `WinProbabilityModel._extract_capability_keywords`: lowercase, take the
`\b[a-z]{4,}\b` words, drop stop words, deduplicate, keep at most 50.
(The source materialises `list(set(keywords))[:50]`, whose order Python
does not specify; it is modelled as first-occurrence order.) -/
def extract_capability_keywords (text : String) : List String :=
  (dedupFirstAux ((alphaWords text).filter (fun w => !winprob_stop_words.contains w)) []).take 50

/-- The `matches` count of `_score_capability_match`: keywords of the
narrative that occur as substrings of the lowercased description. -/
def keywordMatches (narrative desc : String) : Nat :=
  ((extract_capability_keywords narrative).filter
    (fun kw => containsSub (lowerStr desc) (lowerStr kw))).length

/-! ## Win-probability capability match
(win_probability._score_capability_match) -/

/-- The NAICS part of `_score_capability_match`: like the relevance NAICS
loop but with no early exit and no update below a 2-digit match. -/
def capNaicsLoop (opp : String) : List String → ℚ → ℚ
  | [], s => s
  | c :: rest, s =>
      let ml := commonPrefixLen opp.toList (pyStrip c).toList
      let s1 :=
        if ml ≥ 6 then qmax s 1
        else if ml ≥ 5 then qmax s (mkRat 9 10)
        else if ml ≥ 4 then qmax s (mkRat 3 4)
        else if ml ≥ 3 then qmax s (mkRat 1 2)
        else if ml ≥ 2 then qmax s (mkRat 1 4)
        else s
      capNaicsLoop opp rest s1

/-- `WinProbabilityModel._score_capability_match` (score component; the
analysis string is not modelled): NAICS prefix bands from 0, +0.15 clamped
for a PSC exact match, +0.10 clamped for more than three keyword hits,
rounded to 4 decimal places. -/
def score_capability_match (orgNaics orgPsc : List String) (orgNarrative : Option String)
    (oppNaics oppPsc oppDesc : Option String) : ℚ :=
  let score : ℚ :=
    if strTruthy oppNaics = true ∧ orgNaics ≠ [] then
      capNaicsLoop (pyStrip (oppNaics.getD "")) orgNaics 0
    else 0
  let score :=
    if strTruthy oppPsc = true ∧ orgPsc ≠ [] ∧ (oppPsc.getD "") ∈ orgPsc then
      qmin 1 (qadd score (mkRat 3 20))
    else score
  let score :=
    if strTruthy orgNarrative = true ∧ strTruthy oppDesc = true ∧
        keywordMatches (orgNarrative.getD "") (oppDesc.getD "") > 3 then
      qmin 1 (qadd score (mkRat 1 10))
    else score
  pyRound4 score

/-! ## Pricing intelligence (pricing_intelligence.py) -/

/-- One row of `LABOR_RATE_BENCHMARKS`. -/
structure LaborRateBenchmark where
  labor_category : String
  min_rate : ℚ
  max_rate : ℚ
  median_rate : ℚ
  average_rate : ℚ
  sample_size : ℕ
  data_source : String
deriving DecidableEq, Repr

/-- `PricingIntelligenceService.LABOR_RATE_BENCHMARKS`, exactly as in the
source (rates are exact decimals). -/
def LABOR_RATE_BENCHMARKS : List (String × LaborRateBenchmark) :=
  [("program_manager",
    ⟨"Program Manager", 125, 225, 175, mkRat 345 2, 500, "GSA IT Schedule 70"⟩),
   ("project_manager",
    ⟨"Project Manager", 95, 175, 135, 132, 800, "GSA IT Schedule 70"⟩),
   ("senior_engineer",
    ⟨"Senior Software Engineer", 110, 195, 155, 152, 1200, "GSA IT Schedule 70"⟩),
   ("engineer",
    ⟨"Software Engineer", 75, 145, 110, 108, 1500, "GSA IT Schedule 70"⟩),
   ("junior_engineer",
    ⟨"Junior Software Engineer", 55, 95, 72, mkRat 147 2, 900, "GSA IT Schedule 70"⟩),
   ("senior_analyst",
    ⟨"Senior Systems Analyst", 95, 165, 125, 127, 700, "GSA IT Schedule 70"⟩),
   ("analyst",
    ⟨"Systems Analyst", 65, 125, 92, 94, 1100, "GSA IT Schedule 70"⟩),
   ("security_engineer",
    ⟨"Cybersecurity Engineer", 115, 210, 160, 158, 450, "GSA IT Schedule 70"⟩),
   ("data_scientist",
    ⟨"Data Scientist", 105, 195, 150, 148, 350, "GSA IT Schedule 70"⟩),
   ("cloud_architect",
    ⟨"Cloud Solutions Architect", 130, 235, 180, 178, 280, "GSA IT Schedule 70"⟩),
   ("consultant_senior",
    ⟨"Senior Consultant", 115, 225, 165, 162, 600, "GSA PSS Schedule"⟩),
   ("consultant",
    ⟨"Consultant", 75, 155, 110, 112, 850, "GSA PSS Schedule"⟩),
   ("subject_matter_expert",
    ⟨"Subject Matter Expert", 140, 285, 200, 195, 400, "GSA PSS Schedule"⟩),
   ("admin_assistant",
    ⟨"Administrative Assistant", 35, 65, 48, 49, 1000, "GSA Schedule"⟩),
   ("executive_assistant",
    ⟨"Executive Assistant", 50, 95, 70, 71, 500, "GSA Schedule"⟩)]

/-- One row of `NAICS_BENCHMARKS`. -/
structure ContractValueBenchmark where
  naics_code : String
  psc_code : Option String
  min_value : ℚ
  max_value : ℚ
  median_value : ℚ
  average_value : ℚ
  sample_size : ℕ
  period : String
deriving DecidableEq, Repr

/-- `PricingIntelligenceService.NAICS_BENCHMARKS`, exactly as in the source.
The `541519` row passes `average_rate=` where the dataclass expects
`average_value=` — the spec directs implementers to read it as the
documented `average_value`, which is how it is modelled here. -/
def NAICS_BENCHMARKS : List (String × ContractValueBenchmark) :=
  [("541511", ⟨"541511", some "D302", 100000, 50000000, 2500000, 5200000, 2500, "FY2024"⟩),
   ("541512", ⟨"541512", some "D306", 150000, 75000000, 3500000, 7800000, 1800, "FY2024"⟩),
   ("541519", ⟨"541519", some "D399", 75000, 25000000, 1800000, 3200000, 1200, "FY2024"⟩),
   ("541330", ⟨"541330", some "C211", 200000, 100000000, 5000000, 12500000, 900, "FY2024"⟩),
   ("561210", ⟨"561210", some "R699", 50000, 15000000, 850000, 1800000, 1500, "FY2024"⟩)]

/-- The median rate of a labor category, 0 when the category is unknown
(unknown categories are skipped by the should-cost loop). -/
def medianRateOf (category : String) : ℚ :=
  match LABOR_RATE_BENCHMARKS.lookup category with
  | some b => b.median_rate
  | none => 0

/-- The numeric result of `calculate_should_cost` (the per-category
breakdown dict and the final `float(...)` conversions for serialization are
not modelled). -/
structure ShouldCostResult where
  direct_labor : ℚ
  overhead_cost : ℚ
  subtotal : ℚ
  profit : ℚ
  total_price : ℚ
  price_per_month : ℚ
deriving DecidableEq, Repr

/-- `PricingIntelligenceService.calculate_should_cost`.  The labor mix is an
association list (Python dict order is insertion order); unknown categories
are skipped.  `overhead_rate` and `profit_margin` are taken as exact
decimals, as the spec requires (`Decimal(str(...))` in the source). -/
def calculate_should_cost (laborMix : List (String × ℕ)) (durationMonths : ℕ)
    (overheadRate profitMargin : ℚ) : ShouldCostResult :=
  let totalHours : ℕ := 173 * durationMonths
  let direct := laborMix.foldl (fun acc p =>
      match LABOR_RATE_BENCHMARKS.lookup p.1 with
      | some bench => qadd acc (qmul (qmul bench.median_rate (mkRat totalHours 1)) (mkRat p.2 1))
      | none => acc) 0
  let overhead := qmul direct (qsub overheadRate 1)
  let subtotal := qadd direct overhead
  let profit := qmul subtotal profitMargin
  let total := qadd subtotal profit
  { direct_labor := direct, overhead_cost := overhead, subtotal := subtotal,
    profit := profit, total_price := total,
    price_per_month := qdiv total (mkRat durationMonths 1) }

/-- `PricingIntelligenceService._get_naics_benchmark`: exact key hit, else
the first entry whose code starts with the first four characters of the
requested code (for an empty code this empty prefix matches the first
entry). -/
def get_naics_benchmark (naicsCode : String) : Option ContractValueBenchmark :=
  match NAICS_BENCHMARKS.lookup naicsCode with
  | some b => some b
  | none =>
      (NAICS_BENCHMARKS.find? (fun p => (naicsCode.toList.take 4).isPrefixOf p.1.toList)).map
        Prod.snd

/-- `PricingIntelligenceService._calculate_recommended_price` (the
`estimated_min`, `labor_mix` and `labor_rates` parameters are unused in the
source body and omitted).  `if estimated_max:` is Python truthiness, so a
zero estimate falls through to the benchmark branch. -/
def calculate_recommended_price (benchmark : Option ContractValueBenchmark)
    (estimatedMax : Option ℚ) : ℚ × ℚ :=
  if decTruthy estimatedMax then
    (qmul (estimatedMax.getD 0) (mkRat 17 20), qmul (estimatedMax.getD 0) (mkRat 1 1))
  else
    match benchmark with
    | some b => (qmul b.median_value (mkRat 4 5), qmul b.median_value (mkRat 6 5))
    | none => (250000, 2500000)

/-! ## Supply-chain compliance (supply_chain.py) -/

/-- The `ComplianceStatus` enum. -/
inductive ComplianceStatus where
  | compliant
  | non_compliant
  | prohibited
  | unknown
  | requires_review
deriving DecidableEq, Repr

/-- `SupplyChainComplianceService.PROHIBITED_ENTITIES`, exactly as in the
source. -/
def PROHIBITED_ENTITIES : List (String × String) :=
  [("huawei", "Huawei Technologies Co., Ltd."),
   ("zte", "ZTE Corporation"),
   ("hytera", "Hytera Communications Corporation"),
   ("hikvision", "Hangzhou Hikvision Digital Technology Co., Ltd."),
   ("dahua", "Dahua Technology Co., Ltd."),
   ("huawei marine", "Huawei Marine Networks"),
   ("huawei cloud", "Huawei Cloud Computing"),
   ("hiwatch", "HiWatch (Hikvision subsidiary)"),
   ("ezviz", "EZVIZ (Hikvision subsidiary)"),
   ("lorex", "Lorex Technology (Dahua subsidiary)"),
   ("kaspersky", "Kaspersky Lab (if network-connected)")]

/-- `SupplyChainComplianceService.PROHIBITED_BRANDS`, exactly as in the
source. -/
def PROHIBITED_BRANDS : List (String × String) :=
  [("honor", "huawei"),
   ("hikwatch", "hikvision"),
   ("dahua technology", "dahua"),
   ("uniview", "requires_review")]

/-- `TAA_DESIGNATED_COUNTRIES`: ISO-2 code, country name, designated flag. -/
def TAA_DESIGNATED_COUNTRIES : List (String × String × Bool) :=
  [("AM", "Armenia", true), ("AT", "Austria", true), ("AU", "Australia", true),
   ("BE", "Belgium", true), ("BG", "Bulgaria", true), ("CA", "Canada", true),
   ("HR", "Croatia", true), ("CY", "Cyprus", true), ("CZ", "Czech Republic", true),
   ("DK", "Denmark", true), ("EE", "Estonia", true), ("FI", "Finland", true),
   ("FR", "France", true), ("DE", "Germany", true), ("GR", "Greece", true),
   ("HK", "Hong Kong", true), ("HU", "Hungary", true), ("IS", "Iceland", true),
   ("IE", "Ireland", true), ("IL", "Israel", true), ("IT", "Italy", true),
   ("JP", "Japan", true), ("KR", "Korea, Republic of", true), ("LV", "Latvia", true),
   ("LI", "Liechtenstein", true), ("LT", "Lithuania", true), ("LU", "Luxembourg", true),
   ("MT", "Malta", true), ("MD", "Moldova", true), ("ME", "Montenegro", true),
   ("NL", "Netherlands", true), ("NZ", "New Zealand", true),
   ("MK", "North Macedonia", true), ("NO", "Norway", true), ("PL", "Poland", true),
   ("PT", "Portugal", true), ("RO", "Romania", true), ("SG", "Singapore", true),
   ("SK", "Slovakia", true), ("SI", "Slovenia", true), ("ES", "Spain", true),
   ("SE", "Sweden", true), ("CH", "Switzerland", true), ("TW", "Taiwan", true),
   ("UA", "Ukraine", true), ("GB", "United Kingdom", true), ("US", "United States", true),
   ("AG", "Antigua and Barbuda", true), ("AW", "Aruba", true), ("BS", "Bahamas", true),
   ("BB", "Barbados", true), ("BZ", "Belize", true),
   ("VG", "British Virgin Islands", true), ("CW", "Curacao", true),
   ("DM", "Dominica", true), ("GD", "Grenada", true), ("GY", "Guyana", true),
   ("HT", "Haiti", true), ("JM", "Jamaica", true), ("MS", "Montserrat", true),
   ("KN", "St. Kitts and Nevis", true), ("LC", "St. Lucia", true),
   ("VC", "St. Vincent and the Grenadines", true), ("TT", "Trinidad and Tobago", true),
   ("BH", "Bahrain", true), ("CL", "Chile", true), ("CO", "Colombia", true),
   ("CR", "Costa Rica", true), ("DO", "Dominican Republic", true),
   ("SV", "El Salvador", true), ("GT", "Guatemala", true), ("HN", "Honduras", true),
   ("JO", "Jordan", true), ("MX", "Mexico", true), ("MA", "Morocco", true),
   ("NI", "Nicaragua", true), ("OM", "Oman", true), ("PA", "Panama", true),
   ("PE", "Peru", true)]

/-- `NON_TAA_COUNTRIES`: ISO-2 code, country name, designated flag. -/
def NON_TAA_COUNTRIES : List (String × String × Bool) :=
  [("CN", "China", false), ("RU", "Russia", false), ("IN", "India", false),
   ("MY", "Malaysia", false), ("TH", "Thailand", false), ("VN", "Vietnam", false),
   ("ID", "Indonesia", false), ("BD", "Bangladesh", false), ("PK", "Pakistan", false),
   ("PH", "Philippines", false), ("BR", "Brazil", false), ("AR", "Argentina", false),
   ("ZA", "South Africa", false), ("EG", "Egypt", false), ("SA", "Saudi Arabia", false),
   ("AE", "United Arab Emirates", false), ("IR", "Iran", false),
   ("KP", "North Korea", false), ("BY", "Belarus", false), ("CU", "Cuba", false),
   ("SY", "Syria", false), ("VE", "Venezuela", false)]

/-- The merged `all_countries` lookup, `{**TAA_DESIGNATED_COUNTRIES,
**NON_TAA_COUNTRIES}`: the non-TAA table wins on a key collision. -/
def allCountriesLookup (code : String) : Option (String × Bool) :=
  match NON_TAA_COUNTRIES.lookup code with
  | some v => some v
  | none => TAA_DESIGNATED_COUNTRIES.lookup code

/-- The sanctioned-country set of `check_taa_compliance`. -/
def sanctioned_countries : List String := ["KP", "IR", "CU", "SY", "BY", "RU"]

/-- The TAA verdict record. -/
structure TAAResult where
  country_code : String
  country_name : String
  status : ComplianceStatus
  is_designated_country : Bool
  is_prohibited : Bool
  notes : String
deriving DecidableEq, Repr

/-- The body of `check_taa_compliance` after the code has been uppercased
and stripped. -/
def taaCore (cc : String) : TAAResult :=
  match allCountriesLookup cc with
  | none =>
      { country_code := cc, country_name := "Unknown", status := .unknown,
        is_designated_country := false, is_prohibited := false,
        notes := "Country code '" ++ cc ++ "' not found in database. Manual verification required." }
  | some nd =>
      if sanctioned_countries.contains cc then
        { country_code := cc, country_name := nd.1, status := .prohibited,
          is_designated_country := nd.2, is_prohibited := true,
          notes := nd.1 ++ " is subject to US sanctions. Procurement prohibited." }
      else if nd.2 then
        { country_code := cc, country_name := nd.1, status := .compliant,
          is_designated_country := nd.2, is_prohibited := false,
          notes := nd.1 ++ " is a TAA designated country." }
      else
        { country_code := cc, country_name := nd.1, status := .non_compliant,
          is_designated_country := nd.2, is_prohibited := false,
          notes := nd.1 ++ " is NOT a TAA designated country. Products may not be procured for federal contracts unless substantially transformed in a designated country." }

/-- `SupplyChainComplianceService.check_taa_compliance`:
`country_code.upper().strip()`, then the table-driven verdict. -/
def check_taa_compliance (countryCode : String) : TAAResult :=
  taaCore (pyStrip (upperStr countryCode))

/-- The Section 889 verdict record. -/
structure Section889Result where
  supplier_name : String
  status : ComplianceStatus
  prohibited_entities_matched : List String
  risk_indicators : List String
  recommendation : String
deriving DecidableEq, Repr

/-- `SupplyChainComplianceService.check_section_889`.  A component is a
(`name`, `manufacturer`) pair of optional strings (`dict.get` with `""`
default). -/
def check_section_889 (supplierName : String)
    (components : Option (List (Option String × Option String))) : Section889Result :=
  let supplierLower := pyStrip (lowerStr supplierName)
  let matched := PROHIBITED_ENTITIES.foldl (fun acc p =>
      if containsSub supplierLower p.1 || containsSub p.1 supplierLower then acc ++ [p.2]
      else acc) []
  let st := PROHIBITED_BRANDS.foldl (fun (st : List String × List String) b =>
      if containsSub supplierLower b.1 then
        if b.2 == "requires_review" then
          (st.1, st.2 ++ ["Brand '" ++ b.1 ++ "' requires additional review"])
        else
          (st.1 ++ [(PROHIBITED_ENTITIES.lookup b.2).getD b.2 ++ " (via brand: " ++ b.1 ++ ")"],
           st.2)
      else st) (matched, [])
  let matched := st.1
  let indicators := st.2
  let matched :=
    match components with
    | none => matched
    | some comps => comps.foldl (fun acc comp =>
        PROHIBITED_ENTITIES.foldl (fun acc2 p =>
          if containsSub (lowerStr (comp.1.getD "")) p.1 ||
              containsSub (lowerStr (comp.2.getD "")) p.1 then
            acc2 ++ [p.2 ++ " (component: " ++ comp.1.getD "Unknown" ++ ")"]
          else acc2) acc) matched
  let indicators := indicators ++
    (if containsSub supplierLower "telecom" || containsSub supplierLower "network" then
      ["Telecommunications/network equipment - verify Section 889 compliance"] else [])
  let indicators := indicators ++
    (if containsSub supplierLower "camera" || containsSub supplierLower "surveillance" ||
        containsSub supplierLower "security" then
      ["Video surveillance equipment - verify against Hikvision/Dahua prohibitions"] else [])
  if matched ≠ [] then
    { supplier_name := supplierName, status := .prohibited,
      prohibited_entities_matched := matched, risk_indicators := indicators,
      recommendation := "DO NOT PROCEED - Supplier matches Section 889 prohibited entities" }
  else if indicators ≠ [] then
    { supplier_name := supplierName, status := .requires_review,
      prohibited_entities_matched := matched, risk_indicators := indicators,
      recommendation := "Additional verification required before procurement" }
  else
    { supplier_name := supplierName, status := .compliant,
      prohibited_entities_matched := matched, risk_indicators := indicators,
      recommendation := "No Section 889 prohibitions identified" }

/-- `SupplyChainComplianceService._calculate_risk`: returns the rounded,
clamped risk score, the level (banded on the unclamped score), and the
risk factors. -/
def calculate_risk (s889 : Section889Result) (taa : Option TAAResult) :
    ℚ × String × List String :=
  let st :=
    if s889.status = ComplianceStatus.prohibited then
      ((1 : ℚ), ["Section 889 PROHIBITED entity match"])
    else if s889.status = ComplianceStatus.requires_review then
      (mkRat 2 5, s889.risk_indicators)
    else ((0 : ℚ), ([] : List String))
  let st :=
    match taa with
    | some t =>
        if t.status = ComplianceStatus.prohibited then
          (qmax st.1 1, st.2 ++ ["Sanctioned country: " ++ t.country_name])
        else if t.status = ComplianceStatus.non_compliant then
          (qadd st.1 (mkRat 1 2), st.2 ++ ["Non-TAA country: " ++ t.country_name])
        else if t.status = ComplianceStatus.unknown then
          (qadd st.1 (mkRat 3 10), st.2 ++ ["Country of origin verification required"])
        else st
    | none => (qadd st.1 (mkRat 1 5), st.2 ++ ["Country of origin not provided"])
  let level :=
    if mkRat 4 5 ≤ st.1 then "critical"
    else if mkRat 1 2 ≤ st.1 then "high"
    else if mkRat 1 4 ≤ st.1 then "medium"
    else "low"
  (pyRound4 (qmin 1 st.1), level, st.2)

/-- `SupplyChainComplianceService._generate_recommendations`. -/
def generate_recommendations (s889 : Section889Result) (taa : Option TAAResult)
    (riskLevel : String) : List String :=
  let recs : List String :=
    if s889.status = ComplianceStatus.prohibited then
      ["DO NOT PROCEED with this supplier - Section 889 violation",
       "Identify alternative suppliers from compliant sources"]
    else if s889.status = ComplianceStatus.requires_review then
      ["Request supplier's Section 889 compliance certification",
       "Obtain detailed product/component listing with manufacturers"]
    else []
  let recs := recs ++
    (match taa with
     | some t =>
         if t.status = ComplianceStatus.prohibited then
           ["DO NOT PROCEED - Sanctioned country of origin"]
         else if t.status = ComplianceStatus.non_compliant then
           ["Request Certificate of Origin documentation",
            "Verify if product is substantially transformed in designated country",
            "Consider alternative suppliers from TAA-compliant countries"]
         else if t.status = ComplianceStatus.unknown then
           ["Verify country of origin with supplier"]
         else []
     | none => ["Request country of origin information from supplier"])
  let recs := recs ++
    (if riskLevel == "high" then
      ["Consult with contracting officer before proceeding",
       "Document all compliance verification steps"] else [])
  if recs = [] then
    ["Supplier passes initial compliance screening",
     "Maintain documentation for audit purposes"]
  else recs

/-- The complete supplier verification record. -/
structure SupplierVerification where
  supplier_id : String
  supplier_name : String
  verified : Bool
  section_889_result : Section889Result
  taa_result : Option TAAResult
  overall_risk_score : ℚ
  risk_level : String
  risk_factors : List String
  recommendations : List String
deriving DecidableEq, Repr

/-- `SupplyChainComplianceService.verify_supplier`.  The source fabricates a
fallback id from `hash(supplier_name) % 100000`; the hash plays no further
role and is modelled by a fixed placeholder suffix. -/
def verify_supplier (supplierName : String) (supplierId : Option String)
    (countryOfOrigin : Option String)
    (components : Option (List (Option String × Option String))) : SupplierVerification :=
  let sid := if strTruthy supplierId then supplierId.getD "" else "SUP-00000"
  let s889 := check_section_889 supplierName components
  let taa :=
    if strTruthy countryOfOrigin then some (check_taa_compliance (countryOfOrigin.getD ""))
    else none
  let rlf := calculate_risk s889 taa
  { supplier_id := sid, supplier_name := supplierName, verified := true,
    section_889_result := s889, taa_result := taa,
    overall_risk_score := rlf.1, risk_level := rlf.2.1, risk_factors := rlf.2.2,
    recommendations := generate_recommendations s889 taa rlf.2.1 }

/-! # Theorems -/

theorem den_cast_ne_zero (q : ℚ) : ((q.den : ℚ)) ≠ 0 :=
  Nat.cast_ne_zero.mpr q.den_nz

theorem num_eq_mul_den (q : ℚ) : (q.num : ℚ) = q * q.den :=
  (div_eq_iff (den_cast_ne_zero q)).mp (Rat.num_div_den q)

theorem mkRat_eq (m : ℤ) (n : ℕ) : mkRat m n = (m : ℚ) / (n : ℚ) := by
  rw [Rat.mkRat_eq_div]

theorem qadd_eq (a b : ℚ) : qadd a b = a + b := by
  unfold qadd
  rw [mkRat_eq]
  push_cast
  rw [div_eq_iff (mul_ne_zero (den_cast_ne_zero a) (den_cast_ne_zero b))]
  linear_combination (b.den : ℚ) * num_eq_mul_den a + (a.den : ℚ) * num_eq_mul_den b

theorem qsub_eq (a b : ℚ) : qsub a b = a - b := by
  unfold qsub
  rw [mkRat_eq]
  push_cast
  rw [div_eq_iff (mul_ne_zero (den_cast_ne_zero a) (den_cast_ne_zero b))]
  linear_combination (b.den : ℚ) * num_eq_mul_den a - (a.den : ℚ) * num_eq_mul_den b

theorem qmul_eq (a b : ℚ) : qmul a b = a * b := by
  unfold qmul
  rw [mkRat_eq]
  push_cast
  rw [div_eq_iff (mul_ne_zero (den_cast_ne_zero a) (den_cast_ne_zero b))]
  linear_combination (b.num : ℚ) * num_eq_mul_den a + (a * a.den : ℚ) * num_eq_mul_den b

theorem qdiv_eq (a b : ℚ) : qdiv a b = a / b := by
  unfold qdiv
  by_cases hb : b = 0
  · subst hb
    simp [mkRat_eq]
  · have hnum : ((b.num : ℚ)) ≠ 0 := by
      exact_mod_cast Rat.num_ne_zero.mpr hb
    rcases le_or_lt 0 b.num with hpos | hneg
    · have habs : ((b.num.natAbs : ℕ) : ℚ) = (b.num : ℚ) := by
        rw [Int.cast_natAbs]
        exact_mod_cast congrArg (fun z : ℤ => (z : ℚ)) (abs_of_nonneg hpos)
      rw [if_pos hpos, mkRat_eq]
      push_cast
      rw [habs]
      rw [div_eq_div_iff (mul_ne_zero (den_cast_ne_zero a) hnum) hb]
      linear_combination ((b.den : ℚ) * b) * num_eq_mul_den a - (a * a.den : ℚ) * num_eq_mul_den b
    · have habs : ((b.num.natAbs : ℕ) : ℚ) = -(b.num : ℚ) := by
        rw [Int.cast_natAbs]
        exact_mod_cast congrArg (fun z : ℤ => (z : ℚ)) (abs_of_neg hneg)
      rw [if_neg (not_le.mpr hneg), mkRat_eq]
      push_cast
      rw [habs]
      rw [div_eq_div_iff (mul_ne_zero (den_cast_ne_zero a) (by simpa using hnum)) hb]
      linear_combination (-((b.den : ℚ) * b)) * num_eq_mul_den a + (a * a.den : ℚ) * num_eq_mul_den b

theorem qmax_eq (a b : ℚ) : qmax a b = max a b := (max_def a b).symm

theorem qmin_eq (a b : ℚ) : qmin a b = min a b := (min_def a b).symm

theorem naicsBand_nonneg (l : Nat) : 0 ≤ naicsBand l := by
  unfold naicsBand
  split_ifs <;> norm_num [mkRat_eq]

theorem naicsBand_le_one (l : Nat) : naicsBand l ≤ 1 := by
  unfold naicsBand
  split_ifs <;> norm_num [mkRat_eq]

theorem naicsBand_mono {a b : Nat} (h : a ≤ b) : naicsBand a ≤ naicsBand b := by
  unfold naicsBand
  split_ifs <;> (try norm_num [mkRat_eq]) <;> omega

theorem naicsBand_max (a b : Nat) :
    naicsBand (max a b) = max (naicsBand a) (naicsBand b) := by
  rcases le_total a b with h | h
  · rw [max_eq_right h, max_eq_right (naicsBand_mono h)]
  · rw [max_eq_left h, max_eq_left (naicsBand_mono h)]

theorem foldr_max_le_one (l : List ℚ) (h : ∀ x ∈ l, x ≤ 1) :
    l.foldr max 0 ≤ 1 := by
  induction l with
  | nil => norm_num
  | cons a t ih =>
      simp only [List.foldr_cons]
      exact max_le (h a (List.mem_cons_self a t))
        (ih (fun x hx => h x (List.mem_cons_of_mem a hx)))

theorem naicsLoop_eq (opp : String) (codes : List String) (best : ℚ)
    (h0 : 0 ≤ best) (h1 : best ≤ 1) :
    naicsLoop opp codes best =
      max best ((codes.map
        (fun c => naicsBand (commonPrefixLen opp.toList (pyStrip c).toList))).foldr max 0) := by
  induction codes generalizing best with
  | nil => simp [naicsLoop, max_eq_left h0]
  | cons c rest ih =>
      simp only [naicsLoop, List.map_cons, List.foldr_cons, qmax_eq]
      by_cases he : max best (naicsBand (commonPrefixLen opp.toList (pyStrip c).toList)) = 1
      · rw [if_pos he]
        have hrest : (rest.map
            (fun c => naicsBand (commonPrefixLen opp.toList (pyStrip c).toList))).foldr max 0 ≤ 1 := by
          refine foldr_max_le_one _ ?_
          intro x hx
          rcases List.mem_map.mp hx with ⟨c0, _, rfl⟩
          exact naicsBand_le_one _
        rw [← max_assoc, he]
        exact (max_eq_left hrest).symm
      · rw [if_neg he]
        rw [ih _ (le_max_of_le_left h0) (max_le h1 (naicsBand_le_one _))]
        rw [max_assoc]

/-- **C2.** The NAICS matcher returns exactly the band of the longest common
prefix length over all candidate codes (1.0 / 0.9 / 0.75 / 0.5 / 0.25 / 0.0
for L ≥ 6 / 5 / 4 / 3 / 2 / < 2), and the neutral value 0.5 when the
opportunity code is missing or the organization has no codes; the early
exit on 1.0 does not change the result. -/
theorem naics_matcher_matches_spec (oppCode : Option String) (orgCodes : List String) :
    calculate_naics_score oppCode orgCodes = naicsScoreSpec oppCode orgCodes := by
  unfold calculate_naics_score naicsScoreSpec
  by_cases h : strTruthy oppCode = false ∨ orgCodes = []
  · rw [if_pos h, if_pos h]
  · rw [if_neg h, if_neg h]
    rw [naicsLoop_eq _ _ _ le_rfl (by norm_num)]
    have key : ∀ (l : List String),
        (l.map (fun c =>
          naicsBand (commonPrefixLen (pyStrip (oppCode.getD "")).toList (pyStrip c).toList))).foldr max 0 =
        naicsBand ((l.map
          (fun c => commonPrefixLen (pyStrip (oppCode.getD "")).toList (pyStrip c).toList)).foldr max 0) := by
      intro l
      induction l with
      | nil => simp [naicsBand]
      | cons c rest ih =>
          simp only [List.map_cons, List.foldr_cons, ih, naicsBand_max]
    rw [key]
    exact max_eq_right (naicsBand_nonneg _)




/-! ## C1: SB set-aside eligibility across the three engines -/

/-- **C1** (code evaluation at the failing inputs).  The spec's SB rule says
every certification in {SB, SDB, 8A, WOSB, EDWOSB, VOSB, SDVOSB, HUBZone}
qualifies for an `SB` set-aside, and the relevance table (with its own test
list) agrees; but the risk assessor's local `setaside_map` omits `VOSB` and
`EDWOSB` from its SB row, so a VOSB- or EDWOSB-certified organization gets
the +0.8 ineligibility factor there; and the relevance and win-probability
engines uppercase the organization's certifications before comparing them
with the mixed-case table entry `"HUBZone"`, so a HUBZone-certified
organization is scored ineligible (0.2 size clamp, 0.1 factor) by those two.
An SB-certified organization is eligible in all three, as expected. -/
theorem sb_setaside_eligibility_divergence :
    (assess_eligibility_risk ["VOSB"] (some "UEI123456789") (some "SB") none).score = mkRat 4 5 ∧
    (assess_eligibility_risk ["VOSB"] (some "UEI123456789") (some "SB") none).factors =
      ["Not eligible for SB set-aside"] ∧
    (assess_eligibility_risk ["EDWOSB"] (some "UEI123456789") (some "SB") none).score = mkRat 4 5 ∧
    calculate_size_score ["HUBZone"] none (some "SB") none = mkRat 1 5 ∧
    score_setaside_eligibility ["HUBZone"] (some "SB") = mkRat 1 10 ∧
    (assess_eligibility_risk ["SB"] (some "UEI123456789") (some "SB") none).score = 0 ∧
    calculate_size_score ["SB"] none (some "SB") none = 1 ∧
    score_setaside_eligibility ["SB"] (some "SB") = 1 := by decide

/-! ## C3: relevance size sub-score -/

/-- **C3** (counterexample).  An organization holding no certifications at
all, facing a required `8A` set-aside, is not clamped: its size sub-score is
1, not at most 0.2, because the clamp only runs when
`organization.set_aside_types` is truthy. -/
theorem size_score_no_certs_counterexample :
    calculate_size_score [] none (some "8A") none = 1 ∧
    ¬ calculate_size_score [] none (some "8A") none ≤ mkRat 1 5 := by decide

/-- **C3** (amended).  The size sub-score equals `min e c`, where
`e = 0.2` exactly when the opportunity's set-aside is truthy, the
organization lists at least one certification, the required type has a
non-empty row in the eligibility table, and no uppercased certification
matches that row (`e = 1` otherwise — in particular for an organization
with no certifications, or for a required type such as `SDB` that has no
row in the relevance table); and `c = capacityBand(value/revenue)` when
both `estimated_value_max` and `annual_revenue` are truthy (`c = 1`
otherwise). -/
theorem size_score_min_form
    (orgSA : List String) (rev : Option ℚ) (oppSA : Option String) (vmax : Option ℚ) :
    calculate_size_score orgSA rev oppSA vmax =
      min
        (if strTruthy oppSA = true ∧ orgSA ≠ [] ∧
            ((relevance_SET_ASIDE_ELIGIBLE.lookup (upperStr (oppSA.getD ""))).getD []) ≠ [] ∧
            ((relevance_SET_ASIDE_ELIGIBLE.lookup (upperStr (oppSA.getD ""))).getD []).any
              (fun t => (orgSA.map upperStr).contains t) = false
          then mkRat 1 5 else 1)
        (if decTruthy vmax = true ∧ decTruthy rev = true
          then capacityBand (qdiv (vmax.getD 0) (rev.getD 0)) else 1) := by
  dsimp only [calculate_size_score]
  set E : List String := (relevance_SET_ASIDE_ELIGIBLE.lookup (upperStr (oppSA.getD ""))).getD []
  set A : Bool := E.any (fun t => (orgSA.map upperStr).contains t)
  have tail : ∀ s : ℚ, s ≤ 1 →
      (if decTruthy vmax = true ∧ decTruthy rev = true
        then qmin s (capacityBand (qdiv (vmax.getD 0) (rev.getD 0))) else s) =
      min s (if decTruthy vmax = true ∧ decTruthy rev = true
        then capacityBand (qdiv (vmax.getD 0) (rev.getD 0)) else 1) := by
    intro s hs
    by_cases h4 : decTruthy vmax = true ∧ decTruthy rev = true
    · rw [if_pos h4, if_pos h4, qmin_eq]
    · rw [if_neg h4, if_neg h4]
      exact (min_eq_left hs).symm
  by_cases h1 : strTruthy oppSA = true ∧ orgSA ≠ []
  · rw [if_pos h1]
    by_cases h2 : E ≠ []
    · rw [if_pos h2]
      by_cases h3 : A = true
      · rw [if_pos h3]
        have hr : ¬ (strTruthy oppSA = true ∧ orgSA ≠ [] ∧ E ≠ [] ∧ A = false) := by
          rintro ⟨-, -, -, hf⟩
          rw [h3] at hf
          exact Bool.noConfusion hf
        rw [if_neg hr]
        exact tail 1 le_rfl
      · simp only [Bool.not_eq_true] at h3
        rw [if_neg (by simp [h3] : ¬ A = true)]
        have hr : strTruthy oppSA = true ∧ orgSA ≠ [] ∧ E ≠ [] ∧ A = false :=
          ⟨h1.1, h1.2, h2, h3⟩
        rw [if_pos hr]
        exact tail (mkRat 1 5) (by norm_num [mkRat_eq])
    · rw [if_neg h2]
      have hr : ¬ (strTruthy oppSA = true ∧ orgSA ≠ [] ∧ E ≠ [] ∧ A = false) := by
        rintro ⟨-, -, hx, -⟩
        exact h2 hx
      rw [if_neg hr]
      exact tail 1 le_rfl
  · rw [if_neg h1]
    have hr : ¬ (strTruthy oppSA = true ∧ orgSA ≠ [] ∧ E ≠ [] ∧ A = false) := by
      rintro ⟨hx, hy, -⟩
      exact h1 ⟨hx, hy⟩
    rw [if_neg hr]
    exact tail 1 le_rfl

/-! ## C5: state adjacency symmetry -/

/-- **C5** (counterexample).  The win-probability adjacency check runs in one
direction only: `WI` is listed adjacent to `IL`, and an organization in IL
scores 0.75 for an opportunity in WI, but an organization in WI scores only
0.4 for an opportunity in IL — not the same adjacency score. -/
theorem winprob_geo_asymmetry_counterexample :
    score_geographic_fit (some "IL") (some "WI") none = mkRat 3 4 ∧
    score_geographic_fit (some "WI") (some "IL") none = mkRat 2 5 ∧
    mkRat 2 5 ≠ mkRat 3 4 := by decide

/-- **C5** (amended).  In the relevance engine, adjacency is symmetric: for
every distinct pair with `b` listed adjacent to `a` in its table, both
directions score 0.8.  In the win-probability engine, a pair of distinct
DC-metro states scores 0.9 regardless of description, and the 0.75
adjacency score applies (for any description) when the organization's state
is a key of its table listing the opportunity's state and the pair is not
within the DC metro — the reverse direction is not checked. -/
theorem adjacency_scoring_amended :
    (∀ p ∈ relevance_STATE_ADJACENCY, ∀ b ∈ p.2, p.1 ≠ b →
      calculate_geographic_score (some p.1) (some b) = mkRat 4 5 ∧
      calculate_geographic_score (some b) (some p.1) = mkRat 4 5) ∧
    (∀ p ∈ winprob_adjacent_states, ∀ b ∈ p.2, p.1 ≠ b →
      ¬(p.1 ∈ ["DC", "VA", "MD"] ∧ b ∈ ["DC", "VA", "MD"]) →
      ∀ desc : Option String, score_geographic_fit (some p.1) (some b) desc = mkRat 3 4) ∧
    (∀ a ∈ ["DC", "VA", "MD"], ∀ b ∈ ["DC", "VA", "MD"], a ≠ b →
      ∀ desc : Option String, score_geographic_fit (some a) (some b) desc = mkRat 9 10) := by
  refine ⟨by decide, ?_, ?_⟩
  · intro p hp b hb hne hnm desc
    fin_cases hp <;> fin_cases hb <;>
      first
        | rfl
        | exact absurd ⟨by decide, by decide⟩ hnm
  · intro a ha b hb hne desc
    fin_cases ha <;> fin_cases hb <;> first | exact absurd rfl hne | rfl

/-- **C5** (witness).  The amended theorem applied at concrete inputs:
VA–TN symmetric 0.8 in relevance, IL→WI 0.75 in win-probability, VA–DC 0.9
in win-probability. -/
theorem adjacency_scoring_amended_witness :
    calculate_geographic_score (some "VA") (some "TN") = mkRat 4 5 ∧
    calculate_geographic_score (some "TN") (some "VA") = mkRat 4 5 ∧
    score_geographic_fit (some "IL") (some "WI") none = mkRat 3 4 ∧
    score_geographic_fit (some "VA") (some "DC") none = mkRat 9 10 := by
  obtain ⟨h1, h2, h3⟩ := adjacency_scoring_amended
  refine ⟨?_, ?_, ?_, ?_⟩
  · exact (h1 ("VA", ["DC", "MD", "WV", "NC", "TN", "KY"]) (by decide) "TN" (by decide)
      (by decide)).1
  · exact (h1 ("VA", ["DC", "MD", "WV", "NC", "TN", "KY"]) (by decide) "TN" (by decide)
      (by decide)).2
  · exact h2 ("IL", ["WI", "IN", "MO", "IA", "KY"]) (by decide) "WI" (by decide) (by decide)
      (by decide) none
  · exact h3 "VA" (by decide) "DC" (by decide) (by decide) none

/-! ## C9: timeline risk when the deadline has passed -/

/-- **C9.**  For every opportunity whose response deadline lies strictly in
the past at assessment time, the timeline risk category scores exactly 1.0,
its level is `critical`, and its factors contain "deadline has passed";
no other timeline rule contributes. -/
theorem timeline_risk_deadline_passed (d now : ℤ) (h : d < now) :
    (assess_timeline_risk (some d) now).score = 1 ∧
    (assess_timeline_risk (some d) now).level = "critical" ∧
    (assess_timeline_risk (some d) now).factors = ["Response deadline has passed"] := by
  have hdays : Int.fdiv (d - now) 86400 < 0 := by
    rw [Int.fdiv_eq_ediv _ (by norm_num)]
    exact Int.ediv_neg' (by omega) (by norm_num)
  have hq : qmin 1 1 = (1 : ℚ) := by norm_num [qmin]
  have hlevel : score_to_level 1 = "critical" := by decide
  dsimp only [assess_timeline_risk]
  rw [if_pos hdays]
  exact ⟨hq, by rw [hq]; exact hlevel, rfl⟩

/-- **C9** (witness).  A deadline one day before the assessment instant. -/
theorem timeline_risk_deadline_passed_witness :
    (assess_timeline_risk (some 0) 86400).score = 1 ∧
    (assess_timeline_risk (some 0) 86400).level = "critical" ∧
    (assess_timeline_risk (some 0) 86400).factors = ["Response deadline has passed"] :=
  timeline_risk_deadline_passed 0 86400 (by decide)

/-! ## C4: win-probability capability match -/

theorem bandFold (opp : String) (l : List String) :
    (l.map (fun c => naicsBand (commonPrefixLen opp.toList (pyStrip c).toList))).foldr max 0 =
    naicsBand ((l.map (fun c => commonPrefixLen opp.toList (pyStrip c).toList)).foldr max 0) := by
  induction l with
  | nil => simp [naicsBand]
  | cons c rest ih =>
      simp only [List.map_cons, List.foldr_cons, ih, naicsBand_max]

theorem capStep (s : ℚ) (ml : Nat) (h0 : 0 ≤ s) :
    (if ml ≥ 6 then qmax s 1
     else if ml ≥ 5 then qmax s (mkRat 9 10)
     else if ml ≥ 4 then qmax s (mkRat 3 4)
     else if ml ≥ 3 then qmax s (mkRat 1 2)
     else if ml ≥ 2 then qmax s (mkRat 1 4)
     else s) = max s (naicsBand ml) := by
  unfold naicsBand
  split_ifs
  · rw [qmax_eq]
  · rw [qmax_eq]
  · rw [qmax_eq]
  · rw [qmax_eq]
  · rw [qmax_eq]
  · exact (max_eq_left h0).symm

theorem capNaicsLoop_eq (opp : String) (codes : List String) (s : ℚ) (h0 : 0 ≤ s) :
    capNaicsLoop opp codes s =
      max s ((codes.map
        (fun c => naicsBand (commonPrefixLen opp.toList (pyStrip c).toList))).foldr max 0) := by
  induction codes generalizing s with
  | nil => simp [capNaicsLoop, max_eq_left h0]
  | cons c rest ih =>
      dsimp only [capNaicsLoop]
      rw [capStep s _ h0]
      rw [ih _ (le_max_of_le_left h0)]
      simp only [List.map_cons, List.foldr_cons, max_assoc]

theorem capNaicsLoop_eq_matcher (oppNaics : Option String) (orgNaics : List String)
    (h1 : strTruthy oppNaics = true) (h2 : orgNaics ≠ []) :
    capNaicsLoop (pyStrip (oppNaics.getD "")) orgNaics 0 = calculate_naics_score oppNaics orgNaics := by
  unfold calculate_naics_score
  rw [if_neg (by rw [h1]; rintro (hx | hx); exact Bool.noConfusion hx; exact h2 hx)]
  rw [naicsLoop_eq _ _ 0 le_rfl (by norm_num), capNaicsLoop_eq _ _ 0 le_rfl]

theorem naicsBand_twentieth (l : Nat) : ∃ k : ℤ, naicsBand l = mkRat k 20 := by
  unfold naicsBand
  split_ifs
  · exact ⟨20, by norm_num [mkRat_eq]⟩
  · exact ⟨18, by norm_num [mkRat_eq]⟩
  · exact ⟨15, by norm_num [mkRat_eq]⟩
  · exact ⟨10, by norm_num [mkRat_eq]⟩
  · exact ⟨5, by norm_num [mkRat_eq]⟩
  · exact ⟨0, by norm_num [mkRat_eq]⟩

theorem mkRat_add_mkRat (j k : ℤ) (n : ℕ) :
    mkRat j n + mkRat k n = mkRat (j + k) n := by
  rw [mkRat_eq, mkRat_eq, mkRat_eq, div_add_div_same]
  push_cast
  ring_nf

theorem twentieth_clamp (x : ℚ) (j : ℤ) (h : ∃ k : ℤ, x = mkRat k 20) :
    ∃ k : ℤ, min 1 (x + mkRat j 20) = mkRat k 20 := by
  obtain ⟨k, rfl⟩ := h
  rw [mkRat_add_mkRat k j 20]
  rcases le_total (mkRat (k + j) 20) 1 with hle | hge
  · rw [min_eq_right hle]
    exact ⟨k + j, rfl⟩
  · rw [min_eq_left hge]
    exact ⟨20, by norm_num [mkRat_eq]⟩

theorem min_clamp_add (a k : ℚ) (hk : 0 ≤ k) : min 1 (min 1 a + k) = min 1 (a + k) := by
  rcases le_total a 1 with h | h
  · rw [min_eq_right h]
  · rw [min_eq_left h, min_eq_left (by linarith), min_eq_left (by linarith)]

theorem pyRound4_of_twentieth (x : ℚ) (k : ℤ) (hx : x = mkRat k 20) : pyRound4 x = x := by
  have hk : qmul x (mkRat 10000 1) = ((500 * k : ℤ) : ℚ) := by
    rw [qmul_eq, hx, mkRat_eq, mkRat_eq]
    push_cast
    ring
  dsimp only [pyRound4, pyRoundHalfEven, ratFloor]
  rw [hk, Rat.num_intCast, Rat.den_intCast]
  have hfd : Int.fdiv (500 * k) ((1 : ℕ) : ℤ) = 500 * k := by
    rw [Int.fdiv_eq_ediv _ (by norm_num)]
    simp
  rw [hfd]
  have hfrac : qsub ((500 * k : ℤ) : ℚ) (mkRat (500 * k) 1) = 0 := by
    rw [qsub_eq, mkRat_eq]
    push_cast
    ring
  rw [hfrac]
  rw [if_pos (by norm_num [mkRat_eq] : (0 : ℚ) < mkRat 1 2)]
  rw [hx, mkRat_eq, mkRat_eq]
  push_cast
  ring

theorem cap_bonus_chain (B : ℚ) (h1 : B ≤ 1) (hP : ∃ k : ℤ, B = mkRat k 20)
    (P1 P2 : Prop) [Decidable P1] [Decidable P2] :
    pyRound4 (if P2 then qmin 1 (qadd (if P1 then qmin 1 (qadd B (mkRat 3 20)) else B) (mkRat 1 10))
              else (if P1 then qmin 1 (qadd B (mkRat 3 20)) else B)) =
    min 1 (B + (if P1 then mkRat 3 20 else 0) + (if P2 then mkRat 1 10 else 0)) := by
  have hten : mkRat 1 10 = mkRat 2 20 := by norm_num [mkRat_eq]
  by_cases hp1 : P1 <;> by_cases hp2 : P2
  · -- both bonuses
    rw [if_pos hp1, if_pos hp2, if_pos hp1, if_pos hp2]
    rw [qmin_eq, qadd_eq, qmin_eq, qadd_eq]
    rw [min_clamp_add _ _ (by norm_num [mkRat_eq])]
    have hsum : B + mkRat 3 20 + mkRat 1 10 = B + mkRat 5 20 := by
      rw [add_assoc, hten, mkRat_add_mkRat]
      norm_num
    rw [hsum]
    obtain ⟨k, hk⟩ := twentieth_clamp B 5 hP
    rw [pyRound4_of_twentieth _ k hk]
  · -- PSC bonus only
    rw [if_pos hp1, if_neg hp2, if_pos hp1, if_neg hp2]
    rw [qmin_eq, qadd_eq, add_zero]
    obtain ⟨k, hk⟩ := twentieth_clamp B 3 hP
    rw [pyRound4_of_twentieth _ k hk]
  · -- keyword bonus only
    rw [if_neg hp1, if_pos hp2, if_neg hp1, if_pos hp2]
    rw [qmin_eq, qadd_eq]
    rw [hten]
    obtain ⟨k, hk⟩ := twentieth_clamp B 2 hP
    rw [pyRound4_of_twentieth _ k hk, add_zero]
  · -- no bonus
    rw [if_neg hp1, if_neg hp2, if_neg hp1, if_neg hp2]
    obtain ⟨k, hk⟩ := hP
    rw [pyRound4_of_twentieth _ k hk, add_zero, add_zero]
    exact (min_eq_right h1).symm

/-- **C4** (counterexample).  When the NAICS data is missing on either side,
the capability-match factor starts from 0.0 — not from the NAICS matcher's
neutral 0.5: an organization and opportunity with no data at all score 0,
while the matcher returns 0.5. -/
theorem capability_match_missing_naics_counterexample :
    score_capability_match [] [] none none none none = 0 ∧
    calculate_naics_score none [] = mkRat 1 2 ∧
    (0 : ℚ) ≠ mkRat 1 2 := by decide

/-- **C4** (amended).  The capability-match factor equals
`min 1 (base + pscBonus + kwBonus)` where `base` is the C2/C3 NAICS matcher
score when the opportunity code and organization codes are both present but
0.0 (not the neutral 0.5) otherwise, `pscBonus = 0.15` for an exact PSC
match, and `kwBonus = 0.10` when more than three capability keywords from
the narrative occur in the description; the trailing round to 4 decimal
places is the identity on these values. -/
theorem capability_match_amended (orgNaics orgPsc : List String)
    (narr oppNaics oppPsc oppDesc : Option String) :
    score_capability_match orgNaics orgPsc narr oppNaics oppPsc oppDesc =
      min 1 ((if strTruthy oppNaics = true ∧ orgNaics ≠ []
                then calculate_naics_score oppNaics orgNaics else 0) +
             (if strTruthy oppPsc = true ∧ orgPsc ≠ [] ∧ (oppPsc.getD "") ∈ orgPsc
                then mkRat 3 20 else 0) +
             (if strTruthy narr = true ∧ strTruthy oppDesc = true ∧
                  keywordMatches (narr.getD "") (oppDesc.getD "") > 3
                then mkRat 1 10 else 0)) := by
  dsimp only [score_capability_match]
  have hswap : (if strTruthy oppNaics = true ∧ orgNaics ≠ []
      then capNaicsLoop (pyStrip (oppNaics.getD "")) orgNaics 0 else 0) =
      (if strTruthy oppNaics = true ∧ orgNaics ≠ []
      then calculate_naics_score oppNaics orgNaics else 0) := by
    by_cases hn : strTruthy oppNaics = true ∧ orgNaics ≠ []
    · rw [if_pos hn, if_pos hn, capNaicsLoop_eq_matcher _ _ hn.1 hn.2]
    · rw [if_neg hn, if_neg hn]
  rw [hswap]
  have h1 : (if strTruthy oppNaics = true ∧ orgNaics ≠ []
      then calculate_naics_score oppNaics orgNaics else 0) ≤ 1 := by
    by_cases hn : strTruthy oppNaics = true ∧ orgNaics ≠ []
    · rw [if_pos hn, ← capNaicsLoop_eq_matcher _ _ hn.1 hn.2,
        capNaicsLoop_eq _ _ 0 le_rfl, bandFold, max_eq_right (naicsBand_nonneg _)]
      exact naicsBand_le_one _
    · rw [if_neg hn]
      norm_num
  have hP : ∃ k : ℤ, (if strTruthy oppNaics = true ∧ orgNaics ≠ []
      then calculate_naics_score oppNaics orgNaics else 0) = mkRat k 20 := by
    by_cases hn : strTruthy oppNaics = true ∧ orgNaics ≠ []
    · rw [if_pos hn, ← capNaicsLoop_eq_matcher _ _ hn.1 hn.2,
        capNaicsLoop_eq _ _ 0 le_rfl, bandFold, max_eq_right (naicsBand_nonneg _)]
      exact naicsBand_twentieth _
    · rw [if_neg hn]
      exact ⟨0, by norm_num [mkRat_eq]⟩
  exact cap_bonus_chain _ h1 hP _ _

/-! ## C8: TAA compliance verdicts -/

theorem mem_of_lookup {β : Type} {l : List (String × β)} {k : String} {v : β}
    (h : l.lookup k = some v) : (k, v) ∈ l := by
  obtain ⟨l1, l2, rfl, -⟩ := List.lookup_eq_some_iff.mp h
  exact List.mem_append.mpr (Or.inr (List.mem_cons_self _ _))

/-- **C8.**  `check_taa_compliance` is total and returns a verdict for every
ISO-2 code (after uppercasing and stripping): a sanctioned code gives
`prohibited` with `is_prohibited = true` and `is_designated_country =
false`; a code in the designated table gives `compliant`; a code known in
the non-designated table and not sanctioned gives `non_compliant`; a code
absent from both tables gives `unknown`. -/
theorem check_taa_verdicts (c : String) :
    (pyStrip (upperStr c) ∈ sanctioned_countries →
      (check_taa_compliance c).status = ComplianceStatus.prohibited ∧
      (check_taa_compliance c).is_prohibited = true ∧
      (check_taa_compliance c).is_designated_country = false) ∧
    ((TAA_DESIGNATED_COUNTRIES.lookup (pyStrip (upperStr c))).isSome = true →
      (check_taa_compliance c).status = ComplianceStatus.compliant) ∧
    ((NON_TAA_COUNTRIES.lookup (pyStrip (upperStr c))).isSome = true →
      pyStrip (upperStr c) ∉ sanctioned_countries →
      (check_taa_compliance c).status = ComplianceStatus.non_compliant) ∧
    ((TAA_DESIGNATED_COUNTRIES.lookup (pyStrip (upperStr c))) = none →
      (NON_TAA_COUNTRIES.lookup (pyStrip (upperStr c))) = none →
      (check_taa_compliance c).status = ComplianceStatus.unknown ∧
      (check_taa_compliance c).is_prohibited = false ∧
      (check_taa_compliance c).is_designated_country = false) := by
  unfold check_taa_compliance
  refine ⟨?_, ?_, ?_, ?_⟩
  · intro hs
    have hall : ∀ s ∈ sanctioned_countries,
        (taaCore s).status = ComplianceStatus.prohibited ∧
        (taaCore s).is_prohibited = true ∧
        (taaCore s).is_designated_country = false := by decide
    exact hall _ hs
  · intro hd
    obtain ⟨v, hv⟩ := Option.isSome_iff_exists.mp hd
    have hall : ∀ p ∈ TAA_DESIGNATED_COUNTRIES,
        (taaCore p.1).status = ComplianceStatus.compliant := by decide
    exact hall _ (mem_of_lookup hv)
  · intro hn hns
    obtain ⟨v, hv⟩ := Option.isSome_iff_exists.mp hn
    have hall : ∀ p ∈ NON_TAA_COUNTRIES, p.1 ∉ sanctioned_countries →
        (taaCore p.1).status = ComplianceStatus.non_compliant := by decide
    exact hall _ (mem_of_lookup hv) hns
  · intro hd hn
    simp [taaCore, allCountriesLookup, hn, hd]

/-- **C8** (witness).  The four verdicts at `KP`, `JP`, `CN` and `XX`. -/
theorem check_taa_verdicts_witness :
    ((check_taa_compliance "KP").status = ComplianceStatus.prohibited ∧
     (check_taa_compliance "KP").is_prohibited = true ∧
     (check_taa_compliance "KP").is_designated_country = false) ∧
    (check_taa_compliance "JP").status = ComplianceStatus.compliant ∧
    (check_taa_compliance "CN").status = ComplianceStatus.non_compliant ∧
    ((check_taa_compliance "XX").status = ComplianceStatus.unknown ∧
     (check_taa_compliance "XX").is_prohibited = false ∧
     (check_taa_compliance "XX").is_designated_country = false) :=
  ⟨(check_taa_verdicts "KP").1 (by decide),
   (check_taa_verdicts "JP").2.1 (by decide),
   (check_taa_verdicts "CN").2.2.1 (by decide) (by decide),
   (check_taa_verdicts "XX").2.2.2 (by decide) (by decide)⟩

/-! ## C6: should-cost in exact decimal arithmetic -/

theorem should_cost_foldl (months : ℕ) (mix : List (String × ℕ)) (acc : ℚ) :
    mix.foldl (fun acc p =>
      match LABOR_RATE_BENCHMARKS.lookup p.1 with
      | some bench =>
          qadd acc (qmul (qmul bench.median_rate (mkRat ((173 * months : ℕ) : ℤ) 1)) (mkRat p.2 1))
      | none => acc) acc =
    acc + (mix.map (fun p => medianRateOf p.1 * (p.2 : ℚ) * 173 * (months : ℚ))).sum := by
  induction mix generalizing acc with
  | nil => simp
  | cons p rest ih =>
      simp only [List.foldl_cons, List.map_cons, List.sum_cons]
      cases hl : LABOR_RATE_BENCHMARKS.lookup p.1 with
      | some bench =>
          dsimp only
          rw [ih]
          rw [qadd_eq, qmul_eq, qmul_eq, mkRat_eq, mkRat_eq]
          rw [medianRateOf, hl]
          push_cast
          ring
      | none =>
          dsimp only
          rw [ih]
          rw [medianRateOf, hl]
          ring

/-- **C6.**  `calculate_should_cost` computes, in exact decimal arithmetic,
`direct = Σ median × fte × 173 × months` over the categories of the labor
mix (unknown categories contribute nothing), `overhead = direct ×
(overhead_rate − 1)`, `subtotal = direct + overhead`, `profit = subtotal ×
margin`, `total = subtotal + profit`; and on the S5 inputs
(`{engineer: 2}`, 12 months, overhead 1.5, margin 0.10, engineer median
$110) it returns exactly $456,720 / $228,360 / $685,080 / $68,508 /
$753,588. -/
theorem should_cost_exact (mix : List (String × ℕ)) (months : ℕ) (rate margin : ℚ) :
    (calculate_should_cost mix months rate margin).direct_labor =
      (mix.map (fun p => medianRateOf p.1 * (p.2 : ℚ) * 173 * (months : ℚ))).sum ∧
    (calculate_should_cost mix months rate margin).overhead_cost =
      (calculate_should_cost mix months rate margin).direct_labor * (rate - 1) ∧
    (calculate_should_cost mix months rate margin).subtotal =
      (calculate_should_cost mix months rate margin).direct_labor +
        (calculate_should_cost mix months rate margin).overhead_cost ∧
    (calculate_should_cost mix months rate margin).profit =
      (calculate_should_cost mix months rate margin).subtotal * margin ∧
    (calculate_should_cost mix months rate margin).total_price =
      (calculate_should_cost mix months rate margin).subtotal +
        (calculate_should_cost mix months rate margin).profit ∧
    calculate_should_cost [("engineer", 2)] 12 (mkRat 3 2) (mkRat 1 10) =
      ⟨456720, 228360, 685080, 68508, 753588, 62799⟩ := by
  refine ⟨?_, ?_, ?_, ?_, ?_, by decide⟩
  · dsimp only [calculate_should_cost]
    rw [should_cost_foldl]
    ring
  · dsimp only [calculate_should_cost]
    rw [qmul_eq, qsub_eq]
  · dsimp only [calculate_should_cost]
    rw [qadd_eq]
  · dsimp only [calculate_should_cost]
    rw [qmul_eq]
  · dsimp only [calculate_should_cost]
    rw [qadd_eq]

/-! ## C7: recommended price band -/

/-- **C7** (counterexample).  An opportunity with no NAICS code and no
government estimate does not receive the fallback constants: the empty
4-character prefix matches the first benchmark (541511, median $2.5M), so
the band is [$2M, $3M], not [$250k, $2.5M]. -/
theorem recommended_price_missing_naics_counterexample :
    calculate_recommended_price (get_naics_benchmark "") none = (2000000, 3000000) ∧
    ((2000000 : ℚ), (3000000 : ℚ)) ≠ ((250000 : ℚ), (2500000 : ℚ)) := by decide

/-- **C7** (amended).  The band is `[0.85·max, 1.00·max]` when the
government estimate is present and non-zero; otherwise `[0.8·median,
1.2·median]` of the benchmark found by exact match or else the first entry
whose code starts with the first four characters of the opportunity NAICS
(so a missing NAICS matches the first entry, 541511); the fallback
constants `[$250k, $2.5M]` apply only when the estimate is falsy and no
entry matches. -/
theorem recommended_price_bands :
    (∀ (b : Option ContractValueBenchmark) (v : ℚ), v ≠ 0 →
      calculate_recommended_price b (some v) = (mkRat 17 20 * v, v)) ∧
    (∀ (b : ContractValueBenchmark) (est : Option ℚ), decTruthy est = false →
      calculate_recommended_price (some b) est =
        (mkRat 4 5 * b.median_value, mkRat 6 5 * b.median_value)) ∧
    (∀ est : Option ℚ, decTruthy est = false →
      calculate_recommended_price none est = (250000, 2500000)) ∧
    (get_naics_benchmark "541512" = some ⟨"541512", some "D306", 150000, 75000000,
      3500000, 7800000, 1800, "FY2024"⟩ ∧
     get_naics_benchmark "541510" = some ⟨"541511", some "D302", 100000, 50000000,
      2500000, 5200000, 2500, "FY2024"⟩ ∧
     get_naics_benchmark "332510" = none) := by
  refine ⟨?_, ?_, ?_, by decide⟩
  · intro b v hv
    have ht : decTruthy (some v) = true := by
      simp [decTruthy, hv]
    dsimp only [calculate_recommended_price]
    rw [if_pos ht]
    rw [qmul_eq, qmul_eq, mkRat_eq, mkRat_eq]
    simp only [Prod.mk.injEq]
    norm_num
    ring
  · intro b est hf
    dsimp only [calculate_recommended_price]
    rw [if_neg (by simp [hf])]
    rw [qmul_eq, qmul_eq]
    simp only [Prod.mk.injEq]
    constructor
    · ring
    · ring
  · intro est hf
    dsimp only [calculate_recommended_price]
    rw [if_neg (by simp [hf])]

/-- **C7** (witness).  The three bands at concrete inputs: a $1M estimate,
the 541512 benchmark, and no data at all. -/
theorem recommended_price_bands_witness :
    calculate_recommended_price none (some 1000000) = (mkRat 17 20 * 1000000, 1000000) ∧
    calculate_recommended_price (get_naics_benchmark "541512") none =
      (mkRat 4 5 * 3500000, mkRat 6 5 * 3500000) ∧
    calculate_recommended_price none none = (250000, 2500000) := by
  obtain ⟨h1, h2, h3, h4⟩ := recommended_price_bands
  refine ⟨h1 none 1000000 (by norm_num), ?_, h3 none rfl⟩
  rw [h4.1, h2 _ none rfl]

/-! ## C10: verify_supplier always reports verified -/

/-- **C10.**  `verify_supplier` returns `verified = true` for every input —
the flag records only that verification ran; in particular the Section-889
prohibited supplier "Huawei Technologies" with origin CN is still
`verified = true` while its 889 status is `prohibited`, its risk level is
`critical` and its risk score is 1. -/
theorem verify_supplier_always_verified :
    (∀ (name : String) (sid country : Option String)
        (comps : Option (List (Option String × Option String))),
      (verify_supplier name sid country comps).verified = true) ∧
    (verify_supplier "Huawei Technologies" none (some "CN") none).verified = true ∧
    (verify_supplier "Huawei Technologies" none (some "CN") none).section_889_result.status =
      ComplianceStatus.prohibited ∧
    (verify_supplier "Huawei Technologies" none (some "CN") none).risk_level = "critical" ∧
    (verify_supplier "Huawei Technologies" none (some "CN") none).overall_risk_score = 1 :=
  ⟨fun name sid country comps => rfl, by decide, by decide, by decide, by decide⟩
